import Mathlib

/-!
Verification of the session-orchestration core of the trading client
(`gui.py`, class `TradingPage`): the scalp session loop, its batch
tracker, the trade-execution pipeline, the data-readiness gate, and the
start/stop commands.

The embedding below is a shallow model of the Python source.  Monetary
quantities (equity, prices, pip distances, lot sizes), which the source
holds as floats, are modelled as integers `ℤ`: every property verified
here depends only on ordered-ring comparison and subtraction, never on
rounding.  Broker calls are modelled by an environment record carrying
the values the broker would return; GUI-only effects (message boxes,
label colours) are elided, while the mutable fields of `TradingPage`
that the session logic reads and writes are carried in `TradeState`.
-/

/-- An order submitted through `trader.place_market_order` (gui.py:626),
recording the arguments of the call. -/
structure MarketOrder where
  symbol_name : String
  volume_lots : ℤ
  side : String
  take_profit_pips : ℤ
  stop_loss_pips : ℤ
deriving Repr, DecidableEq

/-- The `action_details` dictionary returned by `strategy.decide`
(gui.py:608-614): an action string plus optional sl/tp offsets and a
comment. -/
structure StrategySignal where
  action : String
  sl_offset : Option ℤ
  tp_offset : Option ℤ
  comment : String
deriving Repr, DecidableEq

/-- A `TradeIntent` as published by the session loop to the UI queue
(gui.py:614): the argument tuple of the queued `_execute_trade` call. -/
structure TradeIntent where
  side : String
  symbol : String
  price : ℤ
  size : ℤ
  tp_pips_gui : ℤ
  sl_pips_gui : ℤ
  sl_offset : Option ℤ
  tp_offset : Option ℤ
  comment : String
deriving Repr, DecidableEq

/-- One iteration's view of the broker collaborator (`self.trader`).
`equity_summary` is `get_account_summary().get("equity")` (None when the
summary has no equity yet); `close_ok` tells whether
`close_all_positions()` returns normally or raises; `price` is
`get_market_price(symbol)`; `signal` is the strategy's decision.
`equity_after_close` is the equity the broker would report immediately
after `close_all_positions()`; the source never reads it, it is carried
only so that the specification's post-close-baseline claim can be
stated and compared against the code. -/
structure BrokerEnv where
  equity_summary : Option ℤ
  equity_after_close : ℤ
  close_ok : Bool
  price : Option ℤ
  signal : Option StrategySignal
deriving Repr, DecidableEq

/-- The mutable fields of `TradingPage` touched by the session logic:
session statistics (gui.py:449), batch state, the scalping flag and the
two buttons (gui.py:358, 582-585), the log pane, the submitted orders
and the number of `close_all_positions` attempts. -/
structure TradeState where
  total_trades : Nat
  current_batch_trades : Nat
  batch_start_equity : ℤ
  batch_size : Nat
  is_scalping : Bool
  start_button_enabled : Bool
  stop_button_enabled : Bool
  log : List String
  close_all_calls : Nat
  orders : List MarketOrder
deriving Repr, DecidableEq

/-- The state after `TradingPage.__init__` (gui.py:358, 425-428, 449-450):
counters at zero, batch size 5, not scalping, start button enabled, stop
button disabled. -/
def initState : TradeState :=
  { total_trades := 0
    current_batch_trades := 0
    batch_start_equity := 0
    batch_size := 5
    is_scalping := false
    start_button_enabled := true
    stop_button_enabled := false
    log := []
    close_all_calls := 0
    orders := [] }

/-- `TradingPage._toggle_scalping_ui` (gui.py:582-585): sets the scalping
flag and flips the two buttons. -/
def toggle_scalping_ui (flag : Bool) (st : TradeState) : TradeState :=
  { st with
      is_scalping := flag
      start_button_enabled := !flag
      stop_button_enabled := flag }

/-- `TradingPage.stop_scalping` (gui.py:576-580): when a session is
running, toggle the UI off and attempt `close_all_positions` once,
logging (not escalating) a failure; otherwise do nothing at all. -/
def stop_scalping (close_ok : Bool) (st : TradeState) : TradeState :=
  if st.is_scalping then
    let st1 := toggle_scalping_ui false st
    let st2 := { st1 with close_all_calls := st1.close_all_calls + 1 }
    if close_ok then st2
    else { st2 with log := st2.log ++ ["Error closing positions"] }
  else st

/-- The session-state mutations of `TradingPage.start_scalping`
(gui.py:566-573): baseline from the account summary (`or 0.0` turns a
missing equity into `0.0`), batch counter to 0, UI toggled on. -/
def start_scalping (equity_summary : Option ℤ) (st : TradeState) : TradeState :=
  let st1 := { st with
                 batch_start_equity := equity_summary.getD 0
                 current_batch_trades := 0 }
  toggle_scalping_ui true st1

/-- The batch-tracker block at the top of each `_scalp_loop` iteration
(gui.py:589-597): only when the batch counter has reached the batch size
is equity fetched and compared; on target hit, log, attempt
`close_all_positions` (an exception is logged), then reset the baseline
to the equity fetched at the top and the counter to 0. -/
def batch_check (batch_target : ℤ) (env : BrokerEnv) (st : TradeState) : TradeState :=
  if st.current_batch_trades ≥ st.batch_size then
    let equity := env.equity_summary.getD 0
    if equity - st.batch_start_equity ≥ batch_target then
      let st1 := { st with
                     log := st.log ++ ["Batch profit target reached. Closing positions."] }
      let st2 :=
        if env.close_ok then
          { st1 with close_all_calls := st1.close_all_calls + 1 }
        else
          { st1 with
              close_all_calls := st1.close_all_calls + 1
              log := st1.log ++ ["Error closing positions"] }
      { st2 with batch_start_equity := equity, current_batch_trades := 0 }
    else st
  else st

/-- Modelled from the spec (section 4.5): identical to `batch_check`
except that, as the spec's words have it, on flatten the "baseline
resets to the equity observed immediately after flattening (not
before)". -/
def batch_check_spec (batch_target : ℤ) (env : BrokerEnv) (st : TradeState) : TradeState :=
  if st.current_batch_trades ≥ st.batch_size then
    let equity := env.equity_summary.getD 0
    if equity - st.batch_start_equity ≥ batch_target then
      let st1 := { st with
                     log := st.log ++ ["Batch profit target reached. Closing positions."] }
      let st2 :=
        if env.close_ok then
          { st1 with close_all_calls := st1.close_all_calls + 1 }
        else
          { st1 with
              close_all_calls := st1.close_all_calls + 1
              log := st1.log ++ ["Error closing positions"] }
      { st2 with
          batch_start_equity := env.equity_after_close
          current_batch_trades := 0 }
    else st
  else st

/-- `TradingPage._execute_trade` (gui.py:617-634): a null price aborts
with a log line; otherwise the strategy offsets override the GUI
defaults when present, the order is submitted, and on broker success
both counters are incremented while on failure only the reason is
logged. -/
def execute_trade (st : TradeState) (order_result : Bool × String)
    (side : String) (symbol : String) (price : Option ℤ)
    (size tp_pips_gui sl_pips_gui : ℤ)
    (sl_offset_strategy tp_offset_strategy : Option ℤ)
    (strategy_comment : String) : TradeState :=
  match price with
  | none =>
      { st with log := st.log ++ ["Trade execution skipped: Market price is unavailable."] }
  | some _ =>
      let final_tp_pips := match tp_offset_strategy with
        | some v => v
        | none => tp_pips_gui
      let final_sl_pips := match sl_offset_strategy with
        | some v => v
        | none => sl_pips_gui
      let st1 := { st with log := st.log ++ ["Attempting to place market order"] }
      let st2 := { st1 with
                     orders := st1.orders ++
                       [MarketOrder.mk symbol size side final_tp_pips final_sl_pips] }
      match order_result with
      | (true, message) =>
          { st2 with
              log := st2.log ++ ["Order request successful: " ++ message]
              total_trades := st2.total_trades + 1
              current_batch_trades := st2.current_batch_trades + 1 }
      | (false, message) =>
          { st2 with log := st2.log ++ ["Order request failed: " ++ message] }

/-- `available_bars_map.get(tf, 0)` (gui.py:487): dictionary lookup with
default 0, over an association-list model of the dictionary. -/
def bar_count (available_bars_map : List (String × Nat)) (tf : String) : Nat :=
  match available_bars_map.find? (fun p => p.1 == tf) with
  | some p => p.2
  | none => 0

/-- The `all_ready` flag computed by
`TradingPage._update_data_readiness_display` (gui.py:481-489): starts
true and is forced false by any required timeframe whose available count
is below its requirement; an empty requirement map leaves it true. -/
def all_ready (required_bars_map available_bars_map : List (String × Nat)) : Bool :=
  required_bars_map.foldl
    (fun ready p => if bar_count available_bars_map p.1 < p.2 then false else ready)
    true

/-- One iteration of `TradingPage._scalp_loop` past the flag check
(gui.py:589-615): batch check, then price fetch (a null price skips the
rest), then the strategy decision; a buy or sell action publishes one
`TradeIntent` to the UI queue. -/
def scalp_iteration (symbol : String) (tp sl size batch_target : ℤ)
    (env : BrokerEnv) (st : TradeState) : TradeState × List TradeIntent :=
  let st1 := batch_check batch_target env st
  match env.price with
  | none => (st1, [])
  | some current_tick_price =>
      match env.signal with
      | some action_details =>
          if action_details.action = "buy" ∨ action_details.action = "sell" then
            ({ st1 with log := st1.log ++ ["Strategy signal"] },
             [⟨action_details.action, symbol, current_tick_price, size, tp, sl,
               action_details.sl_offset, action_details.tp_offset,
               action_details.comment⟩])
          else (st1, [])
      | none => (st1, [])

/-- The `while self.is_scalping` loop of `_scalp_loop` (gui.py:588),
fuel-bounded.  `scalping_flag t` is the value of the shared
`self.is_scalping` flag as observed by the worker at the top of
iteration `t` (the flag is written by the GUI thread, so the loop sees
it as an external sequence); `envs t` is the broker's behaviour during
iteration `t`.  Returns the final state and the concatenation of all
published trade intents. -/
def scalp_loop (symbol : String) (tp sl size batch_target : ℤ)
    (scalping_flag : Nat → Bool) (envs : Nat → BrokerEnv) :
    Nat → Nat → TradeState → TradeState × List TradeIntent
  | 0, _, st => (st, [])
  | fuel + 1, t, st =>
      if scalping_flag t then
        let step := scalp_iteration symbol tp sl size batch_target (envs t) st
        let rest := scalp_loop symbol tp sl size batch_target scalping_flag envs
          fuel (t + 1) step.1
        (rest.1, step.2 ++ rest.2)
      else (st, [])

/-- The operations of the session core that touch the trade counters:
a trade execution, a top-of-loop batch check, a session start and a
session stop. -/
inductive SessionOp where
  | trade (order_result : Bool × String) (side symbol : String) (price : Option ℤ)
      (size tp_pips_gui sl_pips_gui : ℤ) (sl_offset tp_offset : Option ℤ)
      (comment : String)
  | batch (batch_target : ℤ) (env : BrokerEnv)
  | sessionStart (equity_summary : Option ℤ)
  | sessionStop (close_ok : Bool)

/-- Interpretation of a `SessionOp` by the corresponding embedded
operation. -/
def apply_op (st : TradeState) : SessionOp → TradeState
  | .trade r sd sym p sz tpg slg slo tpo c =>
      execute_trade st r sd sym p sz tpg slg slo tpo c
  | .batch bt env => batch_check bt env st
  | .sessionStart e => start_scalping e st
  | .sessionStop ok => stop_scalping ok st

theorem batch_check_close_calls (batch_target : ℤ) (env : BrokerEnv) (st : TradeState) :
    (batch_check batch_target env st).close_all_calls =
      st.close_all_calls +
        (if st.batch_size ≤ st.current_batch_trades ∧
            batch_target ≤ env.equity_summary.getD 0 - st.batch_start_equity
          then 1 else 0) := by
  unfold batch_check
  by_cases h1 : st.current_batch_trades ≥ st.batch_size
  · by_cases h2 : env.equity_summary.getD 0 - st.batch_start_equity ≥ batch_target
    · cases hc : env.close_ok <;> simp [h1, h2, hc]
    · simp [h1, h2]
  · simp [h1]

theorem scalp_iteration_close_calls (symbol : String) (tp sl size batch_target : ℤ)
    (env : BrokerEnv) (st : TradeState) :
    (scalp_iteration symbol tp sl size batch_target env st).1.close_all_calls =
      (batch_check batch_target env st).close_all_calls := by
  unfold scalp_iteration
  cases env.price with
  | none => rfl
  | some p =>
      cases env.signal with
      | none => rfl
      | some sig =>
          by_cases h : sig.action = "buy" ∨ sig.action = "sell" <;> simp [h]

/-- C1: a batch flatten (a `close_all_positions` attempt from the batch
tracker) happens at the top of a session-loop iteration exactly when the
batch trade counter has reached the batch size and the fetched equity
minus the batch start equity is at least the batch profit target; with
the counter below the batch size, or the equity delta below target,
nothing is flattened. -/
theorem batch_flatten_iff (symbol : String) (tp sl size batch_target : ℤ)
    (env : BrokerEnv) (st : TradeState) :
    (batch_check batch_target env st).close_all_calls =
      st.close_all_calls +
        (if st.batch_size ≤ st.current_batch_trades ∧
            batch_target ≤ env.equity_summary.getD 0 - st.batch_start_equity
          then 1 else 0) ∧
    (scalp_iteration symbol tp sl size batch_target env st).1.close_all_calls =
      st.close_all_calls +
        (if st.batch_size ≤ st.current_batch_trades ∧
            batch_target ≤ env.equity_summary.getD 0 - st.batch_start_equity
          then 1 else 0) := by
  refine ⟨batch_check_close_calls batch_target env st, ?_⟩
  rw [scalp_iteration_close_calls]
  exact batch_check_close_calls batch_target env st

/-- Concrete run for the batch-baseline analysis: batch size reached,
equity 1050 against a baseline of 1000 and target 50, while the equity
after the flatten is 1048 (slippage during the close). -/
def c2_env : BrokerEnv :=
  { equity_summary := some 1050
    equity_after_close := 1048
    close_ok := true
    price := none
    signal := none }

def c2_state : TradeState :=
  { initState with current_batch_trades := 5, batch_start_equity := 1000 }

/-- C2 counterexample: on this flatten (counter at the batch size,
target met, `close_all_positions` attempted) the new baseline is the
equity fetched before the positions were closed, not the post-close
equity, so the code disagrees with the spec-modelled `batch_check_spec`. -/
theorem batch_baseline_counterexample :
    c2_state.batch_size ≤ c2_state.current_batch_trades ∧
    (50 : ℤ) ≤ c2_env.equity_summary.getD 0 - c2_state.batch_start_equity ∧
    (batch_check 50 c2_env c2_state).close_all_calls = c2_state.close_all_calls + 1 ∧
    (batch_check 50 c2_env c2_state).current_batch_trades = 0 ∧
    (batch_check 50 c2_env c2_state).batch_start_equity ≠ c2_env.equity_after_close ∧
    batch_check 50 c2_env c2_state ≠ batch_check_spec 50 c2_env c2_state := by
  decide

/-- C2 amended: whenever the batch profit target is met at the batch
boundary and a flatten occurs, the batch state is reset to trade count 0
and a baseline equal to the equity fetched at the top of the iteration,
before the positions were closed. -/
theorem batch_baseline_pre_close (batch_target : ℤ) (env : BrokerEnv) (st : TradeState)
    (h1 : st.batch_size ≤ st.current_batch_trades)
    (h2 : batch_target ≤ env.equity_summary.getD 0 - st.batch_start_equity) :
    (batch_check batch_target env st).current_batch_trades = 0 ∧
    (batch_check batch_target env st).batch_start_equity = env.equity_summary.getD 0 := by
  unfold batch_check
  cases hc : env.close_ok <;> simp [h1, h2, hc]

theorem batch_baseline_pre_close_witness :
    (batch_check 50 c2_env c2_state).current_batch_trades = 0 ∧
    (batch_check 50 c2_env c2_state).batch_start_equity = c2_env.equity_summary.getD 0 :=
  batch_baseline_pre_close 50 c2_env c2_state (by decide) (by decide)

/-- C3: for every executed trade the resolved stop and target distances
follow strategy-over-default precedence, in all four combinations of
present and absent strategy offsets: a present offset is used, an absent
one falls back to the caller-level default, never the reverse. -/
theorem offset_precedence (st : TradeState) (order_result : Bool × String)
    (side symbol : String) (p size tpg slg v w : ℤ) (c : String) :
    (execute_trade st order_result side symbol (some p) size tpg slg (some v) (some w) c).orders =
      st.orders ++ [MarketOrder.mk symbol size side w v] ∧
    (execute_trade st order_result side symbol (some p) size tpg slg (some v) none c).orders =
      st.orders ++ [MarketOrder.mk symbol size side tpg v] ∧
    (execute_trade st order_result side symbol (some p) size tpg slg none (some w) c).orders =
      st.orders ++ [MarketOrder.mk symbol size side w slg] ∧
    (execute_trade st order_result side symbol (some p) size tpg slg none none c).orders =
      st.orders ++ [MarketOrder.mk symbol size side tpg slg] := by
  rcases order_result with ⟨b, m⟩
  cases b <;> simp [execute_trade]

/-- C5: a null reference price at the trade-execution step submits no
order and leaves both counters (and everything except the log) exactly
as they were, appending only the skip reason to the log; likewise a
session-loop iteration whose price fetch returns null publishes no
trade intent. -/
theorem null_price_discards_intent (st : TradeState) (order_result : Bool × String)
    (side symbol : String) (size tpg slg : ℤ) (slo tpo : Option ℤ) (c : String)
    (eqs : Option ℤ) (eqa : ℤ) (ok : Bool) (sig : Option StrategySignal)
    (symbol2 : String) (tp2 sl2 size2 bt2 : ℤ) (st2 : TradeState) :
    execute_trade st order_result side symbol none size tpg slg slo tpo c =
      { st with
          log := st.log ++ ["Trade execution skipped: Market price is unavailable."] } ∧
    (scalp_iteration symbol2 tp2 sl2 size2 bt2
        (BrokerEnv.mk eqs eqa ok none sig) st2).2 = [] := by
  exact ⟨rfl, rfl⟩

/-- C6: exactly when the broker reports success does the execution
pipeline increment `total_trades` and the batch counter, each by one; on
a reported failure both counters keep their old values and only the
broker's reason is logged after the attempt line. -/
theorem submission_counters (st : TradeState) (m : String) (side symbol : String)
    (p size tpg slg : ℤ) (slo tpo : Option ℤ) (c : String) :
    (execute_trade st (true, m) side symbol (some p) size tpg slg slo tpo c).total_trades =
      st.total_trades + 1 ∧
    (execute_trade st (true, m) side symbol (some p) size tpg slg slo tpo c).current_batch_trades =
      st.current_batch_trades + 1 ∧
    (execute_trade st (false, m) side symbol (some p) size tpg slg slo tpo c).total_trades =
      st.total_trades ∧
    (execute_trade st (false, m) side symbol (some p) size tpg slg slo tpo c).current_batch_trades =
      st.current_batch_trades ∧
    (execute_trade st (true, m) side symbol (some p) size tpg slg slo tpo c).log =
      st.log ++ ["Attempting to place market order", "Order request successful: " ++ m] ∧
    (execute_trade st (false, m) side symbol (some p) size tpg slg slo tpo c).log =
      st.log ++ ["Attempting to place market order", "Order request failed: " ++ m] := by
  cases slo <;> cases tpo <;> simp [execute_trade]

/-- C9: invoking the stop command while no session is running changes
nothing at all: the whole state, buttons and flatten-attempt count
included, is returned untouched. -/
theorem stop_scalping_noop (close_ok : Bool) (st : TradeState)
    (h : st.is_scalping = false) :
    stop_scalping close_ok st = st := by
  simp [stop_scalping, h]

theorem stop_scalping_noop_witness : stop_scalping true initState = initState :=
  stop_scalping_noop true initState rfl

theorem all_ready_foldl (available_bars_map : List (String × Nat)) :
    ∀ (required : List (String × Nat)) (b : Bool),
      required.foldl
          (fun ready p => if bar_count available_bars_map p.1 < p.2 then false else ready) b =
        (b && required.all fun p => decide (p.2 ≤ bar_count available_bars_map p.1)) := by
  intro required
  induction required with
  | nil => intro b; simp
  | cons q rest ih =>
      intro b
      simp only [List.foldl_cons, List.all_cons, ih]
      by_cases h : bar_count available_bars_map q.1 < q.2
      · simp [h, Nat.not_le.mpr h]
      · simp [h, Nat.not_lt.mp h, Bool.and_assoc]

/-- C4: the readiness gate's `all_ready` is true exactly when every
required timeframe's available bar count reaches its requirement (so any
single short timeframe forces it false, whatever the others show), and a
strategy with no bar requirements is trivially ready. -/
theorem all_ready_iff (required_bars_map available_bars_map : List (String × Nat)) :
    (all_ready required_bars_map available_bars_map = true ↔
      ∀ p ∈ required_bars_map, p.2 ≤ bar_count available_bars_map p.1) ∧
    all_ready [] available_bars_map = true := by
  constructor
  · unfold all_ready
    rw [all_ready_foldl]
    simp [List.all_eq_true]
  · rfl

theorem all_ready_iff_witness :
    (all_ready [("1m", 20), ("15s", 10)] [("1m", 25), ("15s", 9)] = true ↔
      ∀ p ∈ [("1m", 20), ("15s", 10)],
        p.2 ≤ bar_count [("1m", 25), ("15s", 9)] p.1) ∧
    all_ready [] [("1m", 25), ("15s", 9)] = true :=
  all_ready_iff [("1m", 20), ("15s", 10)] [("1m", 25), ("15s", 9)]

/-- C8: a timeframe required by the strategy but absent from the live
bar-count map counts as 0 available bars, so a requirement of at least
one bar on an unreported timeframe makes readiness false rather than
erroring or passing. -/
theorem missing_timeframe_not_ready
    (required_bars_map available_bars_map : List (String × Nat)) (tf : String) (r : Nat)
    (hmem : (tf, r) ∈ required_bars_map)
    (hmiss : available_bars_map.find? (fun p => p.1 == tf) = none)
    (hr : 1 ≤ r) :
    bar_count available_bars_map tf = 0 ∧
    all_ready required_bars_map available_bars_map = false := by
  have hz : bar_count available_bars_map tf = 0 := by
    unfold bar_count
    rw [hmiss]
  refine ⟨hz, ?_⟩
  unfold all_ready
  rw [all_ready_foldl]
  rw [Bool.eq_false_iff]
  intro hall
  rw [Bool.true_and, List.all_eq_true] at hall
  have := hall (tf, r) hmem
  simp only [hz, decide_eq_true_eq] at this
  omega

theorem missing_timeframe_not_ready_witness :
    bar_count [("15s", 9)] "1m" = 0 ∧ all_ready [("1m", 20)] [("15s", 9)] = false :=
  missing_timeframe_not_ready [("1m", 20)] [("15s", 9)] "1m" 20 (by decide) (by decide)
    (by decide)

theorem scalp_loop_stopped (symbol : String) (tp sl size batch_target : ℤ)
    (scalping_flag : Nat → Bool) (envs : Nat → BrokerEnv) (fuel t : Nat) (st : TradeState)
    (h : scalping_flag t = false) :
    scalp_loop symbol tp sl size batch_target scalping_flag envs fuel t st = (st, []) := by
  cases fuel with
  | zero => rfl
  | succ f => simp [scalp_loop, h]

theorem scalp_loop_trunc (symbol : String) (tp sl size batch_target : ℤ)
    (scalping_flag : Nat → Bool) (envs : Nat → BrokerEnv) :
    ∀ (j fuel t : Nat) (st : TradeState),
      (∀ n, t + j ≤ n → scalping_flag n = false) → j ≤ fuel →
      scalp_loop symbol tp sl size batch_target scalping_flag envs fuel t st =
        scalp_loop symbol tp sl size batch_target scalping_flag envs j t st := by
  intro j
  induction j with
  | zero =>
      intro fuel t st hstop hf
      have h0 : scalping_flag t = false := hstop t (by omega)
      rw [scalp_loop_stopped symbol tp sl size batch_target scalping_flag envs fuel t st h0]
      rfl
  | succ j ih =>
      intro fuel t st hstop hf
      cases fuel with
      | zero => omega
      | succ f =>
          simp only [scalp_loop]
          by_cases h : scalping_flag t
          · simp only [h, if_true]
            rw [ih f (t + 1) (scalp_iteration symbol tp sl size batch_target (envs t) st).1
                (fun n hn => hstop n (by omega)) (by omega)]
          · simp [h]

def c7_state : TradeState := { initState with is_scalping := true }

/-- C7: once the stop command has taken effect (the shared scalping flag
reads false from iteration `k` on), a run of the session loop publishes
exactly the trade intents of the iterations before `k` — the in-flight
iteration completes and no further `TradeIntent` is ever published — and
one invocation of the stop command on a running session attempts the
best-effort flatten exactly once, clearing the scalping flag and merely
logging a flatten failure so the worker still terminates. -/
theorem stop_halts_loop (symbol : String) (tp sl size batch_target : ℤ)
    (scalping_flag : Nat → Bool) (envs : Nat → BrokerEnv) (k fuel : Nat)
    (st st0 : TradeState) (close_ok : Bool)
    (hstop : ∀ n, k ≤ n → scalping_flag n = false) (hfuel : k ≤ fuel) :
    (scalp_loop symbol tp sl size batch_target scalping_flag envs fuel 0 st).2 =
      (scalp_loop symbol tp sl size batch_target scalping_flag envs k 0 st).2 ∧
    (st0.is_scalping = true →
      (stop_scalping close_ok st0).close_all_calls = st0.close_all_calls + 1 ∧
      (stop_scalping close_ok st0).is_scalping = false ∧
      (stop_scalping close_ok st0).log =
        st0.log ++ (if close_ok then [] else ["Error closing positions"])) := by
  constructor
  · rw [scalp_loop_trunc symbol tp sl size batch_target scalping_flag envs k fuel 0 st
        (fun n hn => hstop n (by omega)) hfuel]
  · intro h
    cases close_ok <;> simp [stop_scalping, toggle_scalping_ui, h]

theorem stop_halts_loop_witness :
    (scalp_loop "EURUSD" 10 5 1 50 (fun _ => false) (fun _ => c2_env) 3 0 initState).2 =
      (scalp_loop "EURUSD" 10 5 1 50 (fun _ => false) (fun _ => c2_env) 0 0 initState).2 ∧
    (c7_state.is_scalping = true →
      (stop_scalping false c7_state).close_all_calls = c7_state.close_all_calls + 1 ∧
      (stop_scalping false c7_state).is_scalping = false ∧
      (stop_scalping false c7_state).log =
        c7_state.log ++ (if false then [] else ["Error closing positions"])) :=
  stop_halts_loop "EURUSD" 10 5 1 50 (fun _ => false) (fun _ => c2_env) 0 3 initState
    c7_state false (fun n _ => rfl) (by decide)

theorem apply_op_preserves_le (st : TradeState) (op : SessionOp)
    (h : st.current_batch_trades ≤ st.total_trades) :
    (apply_op st op).current_batch_trades ≤ (apply_op st op).total_trades := by
  cases op with
  | trade r sd sym p sz tpg slg slo tpo c =>
      rcases r with ⟨b, m⟩
      cases p with
      | none => simpa [apply_op, execute_trade] using h
      | some q =>
          cases b <;> cases slo <;> cases tpo <;>
            simp [apply_op, execute_trade] <;> omega
  | batch bt env =>
      simp only [apply_op]
      unfold batch_check
      by_cases h1 : st.current_batch_trades ≥ st.batch_size
      · by_cases h2 : env.equity_summary.getD 0 - st.batch_start_equity ≥ bt
        · cases hc : env.close_ok <;> simp [h1, h2, hc]
        · simpa [h1, h2] using h
      · simpa [h1] using h
  | sessionStart e => simp [apply_op, start_scalping, toggle_scalping_ui]
  | sessionStop ok =>
      simp only [apply_op]
      unfold stop_scalping
      by_cases hs : st.is_scalping <;> cases ok <;> simp [hs, toggle_scalping_ui, h]

theorem foldl_apply_op_preserves (ops : List SessionOp) :
    ∀ st : TradeState, st.current_batch_trades ≤ st.total_trades →
      (ops.foldl apply_op st).current_batch_trades ≤
        (ops.foldl apply_op st).total_trades := by
  induction ops with
  | nil => intro st h; simpa using h
  | cons op rest ih =>
      intro st h
      simpa using ih (apply_op st op) (apply_op_preserves_le st op h)

/-- C10: both counters start at 0 and, under every sequence of session
operations (trades, batch checks, session starts and stops), the batch
trade counter never exceeds the session total: the two are incremented
together on a successful submission, the batch counter is otherwise only
reset to 0, and the total is never decreased. -/
theorem batch_le_total_invariant :
    initState.current_batch_trades = 0 ∧ initState.total_trades = 0 ∧
    ∀ ops : List SessionOp,
      (ops.foldl apply_op initState).current_batch_trades ≤
        (ops.foldl apply_op initState).total_trades :=
  ⟨rfl, rfl, fun ops => foldl_apply_op_preserves ops initState (Nat.le_refl 0)⟩
